import Mathlib

/-!
Verification of the dose-scheduling and notification-trigger engine of the
med4u medication-reminder application, shallowly embedded in Lean 4.

Conventions of the embedding:
* A time-of-day string `"HH:MM"` is embedded as an `HM` record of its two
  numeric fields (the code always produces and consumes such strings through
  `split(':').map(Number)` and `toTimeString().slice(0, 5)`).
* Minute-of-day values (`hours * 60 + minutes` in the code) are `Nat`.
* The card classifier measures wall-clock distance in real time via
  `Date.getTime()`; both instants lie on the current calendar day, so we embed
  an instant as its milliseconds-of-day (`Nat`) and a slot as
  `minuteOfDay * 60000`.  The code's test `diffMs / 60000 <= 15` on exact
  rational arithmetic is equivalent to `diffMs <= 900000`, which is the form
  used here.
* The notification id string `` `${medicine.id}-${time}` `` is embedded as the
  pair `(medicine.id, time)`: medicine ids are produced by
  `Date.now().toString()` and contain no dash, so the concatenation is
  injective on the pairs that occur.
-/

/-- Hour/minute record standing for an `"HH:MM"` time-of-day string. -/
structure HM where
  hour : Nat
  minute : Nat
deriving DecidableEq, Repr

/-- Minute-of-day of a time, `hours * 60 + minutes` as computed throughout the
code after `time.split(':').map(Number)`. -/
def HM.minutes (t : HM) : Nat := t.hour * 60 + t.minute

/-- Milliseconds-of-day of a scheduled slot on the current day, as produced by
`medicineTime.setHours(hours, minutes, 0, 0)` in `MedicineCard`. -/
def HM.slotMs (t : HM) : Nat := t.minutes * 60000

/-- Absolute difference of two naturals, embedding `Math.abs(a - b)` on the
(nonnegative) quantities the code subtracts. -/
def absDiff (a b : Nat) : Nat := if a ≤ b then b - a else a - b

/-- Medicine record, as stored in `App` state (`interface Medicine`).
`frequency` is kept as the literal string the form writes. -/
structure Medicine where
  id : String
  name : String
  dosage : String
  frequency : String
  times : List HM
  startDate : String
  endDate : Option String
  notes : Option String
  color : String
deriving DecidableEq, Repr

/-- Adherence-log entry (`interface MedicineLog` in `App.tsx`). -/
structure MedicineLog where
  medicineId : String
  medicineName : String
  time : HM
  takenAt : HM
  date : String
deriving DecidableEq, Repr

/-! ### Card-level classifier (`MedicineCard`, src/unnamed/part_001)

The card keeps a component-local `takenTimes : string[]`.  For one scheduled
time it computes `isDueNow`, `isOverdue` and `isTaken` and renders the
"Due Now" badge when `isDue && !isTaken` and the "Overdue" badge when
`overdue && !isTaken`. -/

/-- Embedding of `isDueNow` from `MedicineCard`: the absolute wall-clock
distance between now and the slot today is at most fifteen minutes
(`diffMinutes <= 15`, i.e. at most 900000 milliseconds). -/
def isDueNow (nowMs : Nat) (t : HM) : Bool :=
  absDiff nowMs t.slotMs ≤ 900000

/-- Embedding of `isOverdue` from `MedicineCard`: now is strictly after the
slot's wall-clock time today and the time is not in the card's local
`takenTimes`. -/
def isOverdue (nowMs : Nat) (takenTimes : List HM) (t : HM) : Bool :=
  decide (t.slotMs < nowMs) && !(decide (t ∈ takenTimes))

/-- Whether the card renders the "Due Now" badge for a slot:
`isDue && !isTaken` in the JSX of `MedicineCard`. -/
def dueBadge (nowMs : Nat) (takenTimes : List HM) (t : HM) : Bool :=
  isDueNow nowMs t && !(decide (t ∈ takenTimes))

/-- Whether the card renders the "Overdue" badge for a slot:
`overdue && !isTaken` in the JSX of `MedicineCard`. -/
def overdueBadge (nowMs : Nat) (takenTimes : List HM) (t : HM) : Bool :=
  isOverdue nowMs takenTimes t && !(decide (t ∈ takenTimes))

/-- Embedding of `getNextDose` from `MedicineCard`: `null` for as-needed,
otherwise the first time in the stored `times` order whose minute-of-day
strictly exceeds now, falling back to `times[0]`. -/
def getNextDose (m : Medicine) (currentMinutes : Nat) : Option HM :=
  if m.frequency = "as-needed" then none
  else
    match m.times.find? (fun t => decide (currentMinutes < t.minutes)) with
    | some t => some t
    | none => m.times.head?

/-! ### Dose projector (`getUpcomingMedicines`, src/src/App.tsx)

The loop body pushes, for every non-as-needed medicine in state order and for
every slot time in stored order with minute-of-day strictly greater than now,
an entry `{medicine, time, minutesUntil}`; the result is then sorted by
`(a, b) => a.minutesUntil - b.minutesUntil` (a stable sort per the ECMAScript
specification of `Array.prototype.sort`) and truncated by `.slice(0, 3)`.
The stable sort is embedded as `List.insertionSort`, which is stable for the
same comparison; a stable sort by a total preorder is unique, so the two
agree. -/

/-- Entry of the upcoming-doses projection. -/
structure Upcoming where
  medicine : Medicine
  time : HM
  minutesUntil : Nat
deriving DecidableEq, Repr

/-- Comparison used by the sort in `getUpcomingMedicines`:
`a.minutesUntil - b.minutesUntil` ascending. -/
def leMU (a b : Upcoming) : Prop := a.minutesUntil ≤ b.minutesUntil

instance : DecidableRel leMU := fun a b =>
  inferInstanceAs (Decidable (a.minutesUntil ≤ b.minutesUntil))

instance : IsTotal Upcoming leMU :=
  ⟨fun a b => Nat.le_total a.minutesUntil b.minutesUntil⟩

instance : IsTrans Upcoming leMU := ⟨fun _ _ _ => Nat.le_trans⟩

/-- Collection phase of `getUpcomingMedicines`: the nested `for` loops pushing
one entry per qualifying (medicine, time) pair, in medicine insertion order
and stored time order. -/
def collectUpcoming (medicines : List Medicine) (currentMinutes : Nat) :
    List Upcoming :=
  medicines.flatMap fun m =>
    if m.frequency = "as-needed" then []
    else
      (m.times.filter fun t => decide (currentMinutes < t.minutes)).map
        fun t => ⟨m, t, t.minutes - currentMinutes⟩

/-- Embedding of `getUpcomingMedicines` from `App.tsx`: collect, sort
ascending by `minutesUntil`, then `.slice(0, 3)`. -/
def getUpcomingMedicines (medicines : List Medicine) (currentMinutes : Nat) :
    List Upcoming :=
  ((collectUpcoming medicines currentMinutes).insertionSort leMU).take 3

/-- C1 counterexample input: two twice-daily medicines as created by the form. -/
def medA : Medicine :=
  ⟨"1", "Lisinopril", "10mg", "twice-daily", [⟨8, 0⟩, ⟨20, 0⟩],
    "2026-10-01", none, none, "#ef4444"⟩

/-- Second medicine of the C1 counterexample input. -/
def medB : Medicine :=
  ⟨"2", "Metformin", "5mg", "twice-daily", [⟨9, 0⟩, ⟨21, 0⟩],
    "2026-10-01", none, none, "#3b82f6"⟩

/-! ### Notification trigger engine (`NotificationAlert`, src/unnamed/part_003)

Definitions for the per-tick recomputation `checkForDueMedicines`, the engine
state (due set, dismissed set, sound flag, sound-played set) and the tick
step including the alarm guard. -/

/-- Notification id: the pair standing for the string
`` `${medicine.id}-${time}` ``. -/
abbrev NotifId := String × HM

/-- Notification id of a (medicine, time) pair. -/
def notifId (m : Medicine) (t : HM) : NotifId := (m.id, t)

/-- Entry of the engine's due set (`interface DueNotification`). -/
structure DueNotification where
  medicine : Medicine
  time : HM
  id : NotifId
deriving DecidableEq, Repr

/-- Embedding of the due-set computation inside `checkForDueMedicines`: for
every non-as-needed medicine and every stored time whose minute-of-day is
within five minutes of now (`Math.abs(currentMinutes - medicineMinutes) <= 5`)
and whose id is not in the dismissed list, one `DueNotification` is pushed, in
medicine order and stored time order. -/
def checkForDueMedicines (medicines : List Medicine) (currentMinutes : Nat)
    (dismissed : List NotifId) : List DueNotification :=
  medicines.flatMap fun m =>
    if m.frequency = "as-needed" then []
    else
      (m.times.filter fun t =>
          decide (absDiff currentMinutes t.minutes ≤ 5) &&
            !(decide (notifId m t ∈ dismissed))).map
        fun t => ⟨m, t, notifId m t⟩

/-- Volatile state of the notification engine (`NotificationAlert` component
state): the visible due set, the dismissed ids, the sound-enabled flag and the
ids for which the alarm has already been played. -/
structure NotifState where
  due : List DueNotification
  dismissed : List NotifId
  soundEnabled : Bool
  played : List NotifId
deriving DecidableEq, Repr

/-- One evaluation tick of `checkForDueMedicines`: recompute the due set from
scratch, replace the visible set, and, when sound is enabled and the new set
holds an id that has not played yet, fire the alarm exactly once and append
all the new set's ids to the played list.  The returned boolean records
whether `playAlarmSound()` was invoked on this tick. -/
def engineTick (medicines : List Medicine) (currentMinutes : Nat)
    (s : NotifState) : NotifState × Bool :=
  let newDue := checkForDueMedicines medicines currentMinutes s.dismissed
  let fired := s.soundEnabled && !newDue.isEmpty &&
    ((newDue.map (·.id)).any fun i => !(decide (i ∈ s.played)))
  (⟨newDue, s.dismissed, s.soundEnabled,
      if fired then s.played ++ newDue.map (·.id) else s.played⟩,
    fired)

/-- Iterated engine ticks: each entry supplies the medicines prop and the
current minute-of-day sampled at that tick. -/
def engineRun (s : NotifState) : List (List Medicine × Nat) → NotifState
  | [] => s
  | (ms, now) :: rest => engineRun (engineTick ms now s).1 rest

/-! ### App-level operations (src/src/App.tsx) -/

/-- Embedding of `handleTakeMedicine` from `App.tsx`: look the medicine up by
id; when found, append one log entry with the denormalized name, the scheduled
time, now as `HH:MM` and today as `YYYY-MM-DD`; when not found, do nothing. -/
def handleTakeMedicine (medicines : List Medicine)
    (medicineLog : List MedicineLog) (medicineId : String) (time : HM)
    (nowHM : HM) (today : String) : List MedicineLog :=
  match medicines.find? fun med => med.id == medicineId with
  | some medicine =>
      medicineLog ++ [⟨medicineId, medicine.name, time, nowHM, today⟩]
  | none => medicineLog

/-- Persistent collections held in `App` state. -/
structure AppState where
  medicines : List Medicine
  medicineLog : List MedicineLog
deriving DecidableEq, Repr

/-- Embedding of `handleDeleteMedicine` from `App.tsx`: filter the medicine
collection by id; the log is not touched. -/
def handleDeleteMedicine (s : AppState) (id : String) : AppState :=
  { s with medicines := s.medicines.filter fun med => !(med.id == id) }

/-- Embedding of `getTodaysLog` from `App.tsx`: the log entries whose date
equals today, in insertion order. -/
def getTodaysLog (s : AppState) (today : String) : List MedicineLog :=
  s.medicineLog.filter fun log => log.date == today

/-! ### Medicine form (`MedicineForm`, src/unnamed/part_002) -/

/-- Text fields of the add-medicine form (`formData` state); empty string
means unset, as in the code. -/
structure MedicineFormData where
  name : String
  dosage : String
  frequency : String
  startDate : String
  endDate : String
  notes : String
deriving DecidableEq, Repr

/-- Embedding of `handleSubmit` from `MedicineForm`: reject when a required
text field is unset or when a non-as-needed frequency has an unset time slot
(`times.some(time => !time)`); otherwise create the medicine with the times
exactly as entered (empty for as-needed).  An unset time input is `none`. -/
def handleSubmit (fd : MedicineFormData) (times : List (Option HM))
    (newId : String) (selectedColor : String) : Option Medicine :=
  if fd.name = "" ∨ fd.dosage = "" ∨ fd.frequency = "" then none
  else if fd.frequency ≠ "as-needed" ∧ times.any (·.isNone) then none
  else some
    { id := newId
      name := fd.name
      dosage := fd.dosage
      frequency := fd.frequency
      times := if fd.frequency = "as-needed" then [] else times.reduceOption
      startDate := fd.startDate
      endDate := if fd.endDate = "" then none else some fd.endDate
      notes := if fd.notes = "" then none else some fd.notes
      color := selectedColor }

/-- Daily slot list a medicine's stored times induce: every consumer
(`getNextDose`, `getUpcomingMedicines`, `checkForDueMedicines`) maps each
stored time to its minute-of-day, in stored order. -/
def slotList (m : Medicine) : List Nat := m.times.map HM.minutes

/-- C4 counterexample input: the form data of a twice-daily medicine whose
times are entered in descending order. -/
def unsortedForm : MedicineFormData :=
  ⟨"Aspirin", "100mg", "twice-daily", "2026-10-01", "", ""⟩

/-- Medicine that `handleSubmit` creates from `unsortedForm` with the times
entered as 20:00 then 08:00. -/
def medC : Medicine :=
  ⟨"3", "Aspirin", "100mg", "twice-daily", [⟨20, 0⟩, ⟨8, 0⟩],
    "2026-10-01", none, none, "#22c55e"⟩

/-! ### Session model for take-actions (C7)

One `MedicineCard` holds a component-local `takenTimes` list; the central log
lives in `App`; the dismissed set lives in `NotificationAlert`.  The two
take-action paths below are the card's `handleTakeMedicine(time)` and the
notification's `handleTakeMedicine(notification)`. -/

/-- State visible to one medicine's card during a session: the central log,
the card-local taken times, and the notification dismissed set. -/
structure SessionState where
  log : List MedicineLog
  cardTaken : List HM
  dismissed : List NotifId
deriving DecidableEq, Repr

/-- Take-action from the medicine card (src/unnamed/part_001): append the
time to the card-local `takenTimes` and delegate to the App-level
`handleTakeMedicine`, which appends the log entry. -/
def cardTakeMedicine (medicines : List Medicine) (med : Medicine) (t : HM)
    (nowHM : HM) (today : String) (s : SessionState) : SessionState :=
  { s with
    cardTaken := s.cardTaken ++ [t]
    log := handleTakeMedicine medicines s.log med.id t nowHM today }

/-- Take-action from a notification (src/unnamed/part_003): delegate to the
App-level `handleTakeMedicine` and append the id to the dismissed set; the
card-local `takenTimes` is not updated. -/
def notifTakeMedicine (medicines : List Medicine) (n : DueNotification)
    (nowHM : HM) (today : String) (s : SessionState) : SessionState :=
  { s with
    log := handleTakeMedicine medicines s.log n.medicine.id n.time nowHM today
    dismissed := s.dismissed ++ [n.id] }

/-- Session state after taking `(medA, 08:00)` from its notification at
08:05, starting from the fresh morning state. -/
def afterNotifTake : SessionState :=
  notifTakeMedicine [medA] ⟨medA, ⟨8, 0⟩, notifId medA ⟨8, 0⟩⟩ ⟨8, 5⟩
    "2026-10-12" ⟨[], [], []⟩

theorem dueBadge_iff (nowMs : Nat) (takenTimes : List HM) (t : HM) :
    dueBadge nowMs takenTimes t = true ↔
      ((nowMs : Int) - (t.slotMs : Int)).natAbs ≤ 900000 ∧ t ∉ takenTimes := by
  simp only [dueBadge, isDueNow, absDiff, Bool.and_eq_true, decide_eq_true_eq,
    Bool.not_eq_true', decide_eq_false_iff_not]
  constructor
  · rintro ⟨h, hn⟩
    refine ⟨?_, hn⟩
    split at h <;> omega
  · rintro ⟨h, hn⟩
    refine ⟨?_, hn⟩
    split <;> omega

theorem overdueBadge_iff (nowMs : Nat) (takenTimes : List HM) (t : HM) :
    overdueBadge nowMs takenTimes t = true ↔
      t.slotMs < nowMs ∧ t ∉ takenTimes := by
  simp only [overdueBadge, isOverdue, Bool.and_eq_true, decide_eq_true_eq,
    Bool.not_eq_true', decide_eq_false_iff_not]
  tauto

/-- C2 counterexample: at now = 08:05 the untaken 08:00 slot is reported
Overdue and Due Now simultaneously — the code gives the due-now window no
precedence in the badge logic, contradicting the claim that a slot inside the
15-minute grace window is never simultaneously reported overdue. -/
theorem overdue_and_dueNow_simultaneous :
    overdueBadge (485 * 60000) [] ⟨8, 0⟩ = true ∧
      dueBadge (485 * 60000) [] ⟨8, 0⟩ = true := by
  constructor <;> decide

/-- C2 (amended): the classifier reports a slot as overdue exactly when
wall-clock now is strictly after the slot's wall-clock time today and the
instance is not in the taken-set, independently of the due-now window (a slot
inside the 15-minute window that is already past is reported both due-now and
overdue); in particular at now = 08:20 an untaken 08:00 slot is reported
overdue. -/
theorem overdueBadge_spec (nowMs : Nat) (takenTimes : List HM) (t : HM) :
    (overdueBadge nowMs takenTimes t = true ↔
        t.slotMs < nowMs ∧ t ∉ takenTimes) ∧
      overdueBadge (500 * 60000) [] ⟨8, 0⟩ = true := by
  refine ⟨overdueBadge_iff nowMs takenTimes t, by decide⟩

/-- C3: the classifier reports a slot as due-now exactly when the absolute
wall-clock distance between now and the slot's time today is at most fifteen
minutes and the instance is not in the taken-set; at now = 08:03 an untaken
08:00 slot is due-now and a 20:00 slot is not. -/
theorem dueBadge_spec (nowMs : Nat) (takenTimes : List HM) (t : HM) :
    (dueBadge nowMs takenTimes t = true ↔
        ((nowMs : Int) - (t.slotMs : Int)).natAbs ≤ 900000 ∧ t ∉ takenTimes) ∧
      dueBadge (483 * 60000) [] ⟨8, 0⟩ = true ∧
      dueBadge (483 * 60000) [] ⟨20, 0⟩ = false := by
  refine ⟨dueBadge_iff nowMs takenTimes t, by decide, by decide⟩

theorem mem_collectUpcoming {medicines : List Medicine} {currentMinutes : Nat}
    {e : Upcoming} :
    e ∈ collectUpcoming medicines currentMinutes ↔
      ∃ m ∈ medicines, m.frequency ≠ "as-needed" ∧
        ∃ t ∈ m.times, currentMinutes < t.minutes ∧
          e = ⟨m, t, t.minutes - currentMinutes⟩ := by
  simp only [collectUpcoming, List.mem_flatMap]
  constructor
  · rintro ⟨m, hm, he⟩
    split at he
    · simp at he
    · rename_i hfreq
      simp only [List.mem_map, List.mem_filter, decide_eq_true_eq] at he
      obtain ⟨t, ⟨ht, hlt⟩, rfl⟩ := he
      exact ⟨m, hm, hfreq, t, ht, hlt, rfl⟩
  · rintro ⟨m, hm, hfreq, t, ht, hlt, rfl⟩
    refine ⟨m, hm, ?_⟩
    rw [if_neg hfreq]
    simp only [List.mem_map, List.mem_filter, decide_eq_true_eq]
    exact ⟨t, ⟨ht, hlt⟩, rfl⟩

/-- C1 counterexample: at midnight with two twice-daily medicines there are
four qualifying (medicine, time) pairs, yet `getUpcomingMedicines` returns
only three entries and the pair `(medB, 21:00)` has no entry — the truncation
to the top three happens inside the operation, not in a caller. -/
theorem getUpcomingMedicines_truncates :
    (collectUpcoming [medA, medB] 0).length = 4 ∧
      (getUpcomingMedicines [medA, medB] 0).length = 3 ∧
      ∀ e ∈ getUpcomingMedicines [medA, medB] 0, e.time ≠ ⟨21, 0⟩ := by
  decide

/-- C1 (amended): `getUpcomingMedicines` forms one entry
`{medicine, time, minutesUntil = slotMinute - nowMinute}` for every pair of a
non-as-needed medicine and a slot time whose minute-of-day strictly exceeds
now's, sorts the entries ascending by `minutesUntil` with ties broken stably
by insertion order, and returns only the first three entries of that ordered
sequence (the `.slice(0, 3)` truncation is performed inside the operation);
every returned entry has `minutesUntil > 0`. -/
theorem getUpcomingMedicines_spec (medicines : List Medicine)
    (currentMinutes : Nat) :
    getUpcomingMedicines medicines currentMinutes =
        ((collectUpcoming medicines currentMinutes).insertionSort leMU).take 3 ∧
      (∀ e, e ∈ (collectUpcoming medicines currentMinutes).insertionSort leMU ↔
        ∃ m ∈ medicines, m.frequency ≠ "as-needed" ∧
          ∃ t ∈ m.times, currentMinutes < t.minutes ∧
            e = ⟨m, t, t.minutes - currentMinutes⟩) ∧
      ((collectUpcoming medicines currentMinutes).insertionSort leMU).Pairwise
        leMU ∧
      (∀ a b, leMU a b →
        List.Sublist [a, b] (collectUpcoming medicines currentMinutes) →
        List.Sublist [a, b]
          ((collectUpcoming medicines currentMinutes).insertionSort leMU)) ∧
      (∀ e ∈ getUpcomingMedicines medicines currentMinutes,
        0 < e.minutesUntil) := by
  refine ⟨rfl, ?_, List.sorted_insertionSort leMU _, ?_, ?_⟩
  · intro e
    rw [List.mem_insertionSort]
    exact mem_collectUpcoming
  · intro a b hab hsub
    exact List.pair_sublist_insertionSort hab hsub
  · intro e he
    have he' : e ∈ (collectUpcoming medicines currentMinutes).insertionSort
        leMU := List.mem_of_mem_take he
    rw [List.mem_insertionSort] at he'
    obtain ⟨m, _, _, t, _, hlt, rfl⟩ := mem_collectUpcoming.mp he'
    simpa using Nat.sub_pos_of_lt hlt

/-- C1 witness: the positivity clause of `getUpcomingMedicines_spec` applied
to the concrete first entry of the projection for `[medA, medB]` at 07:00. -/
theorem getUpcomingMedicines_spec_witness :
    0 < (Upcoming.mk medA ⟨8, 0⟩ 60).minutesUntil :=
  (getUpcomingMedicines_spec [medA, medB] 420).2.2.2.2
    ⟨medA, ⟨8, 0⟩, 60⟩ (by decide)

theorem mem_checkForDueMedicines {medicines : List Medicine}
    {currentMinutes : Nat} {dismissed : List NotifId} {n : DueNotification} :
    n ∈ checkForDueMedicines medicines currentMinutes dismissed ↔
      ∃ m ∈ medicines, m.frequency ≠ "as-needed" ∧
        ∃ t ∈ m.times, absDiff currentMinutes t.minutes ≤ 5 ∧
          notifId m t ∉ dismissed ∧ n = ⟨m, t, notifId m t⟩ := by
  simp only [checkForDueMedicines, List.mem_flatMap]
  constructor
  · rintro ⟨m, hm, hn⟩
    split at hn
    · simp at hn
    · rename_i hfreq
      simp only [List.mem_map, List.mem_filter, Bool.and_eq_true,
        decide_eq_true_eq, Bool.not_eq_true', decide_eq_false_iff_not] at hn
      obtain ⟨t, ⟨ht, hd, hnd⟩, rfl⟩ := hn
      exact ⟨m, hm, hfreq, t, ht, hd, hnd, rfl⟩
  · rintro ⟨m, hm, hfreq, t, ht, hd, hnd, rfl⟩
    refine ⟨m, hm, ?_⟩
    rw [if_neg hfreq]
    simp only [List.mem_map, List.mem_filter, Bool.and_eq_true,
      decide_eq_true_eq, Bool.not_eq_true', decide_eq_false_iff_not]
    exact ⟨t, ⟨ht, hd, hnd⟩, rfl⟩

/-- C5: on every evaluation tick the engine's visible due set is replaced by
the freshly computed set — it depends only on the medicines, the sampled
minute and the dismissed set, never on the previous tick's due set — and a
notification is in it exactly when its medicine is not as-needed, the
minute-of-day distance between now and the slot is at most five minutes, and
its id is not dismissed. -/
theorem dueSet_spec (medicines : List Medicine) (currentMinutes : Nat)
    (s : NotifState) :
    (engineTick medicines currentMinutes s).1.due =
        checkForDueMedicines medicines currentMinutes s.dismissed ∧
      ∀ n, n ∈ (engineTick medicines currentMinutes s).1.due ↔
        ∃ m ∈ medicines, m.frequency ≠ "as-needed" ∧
          ∃ t ∈ m.times, absDiff currentMinutes t.minutes ≤ 5 ∧
            notifId m t ∉ s.dismissed ∧ n = ⟨m, t, notifId m t⟩ :=
  ⟨rfl, fun _ => mem_checkForDueMedicines⟩

theorem engineTick_fired_iff (medicines : List Medicine) (currentMinutes : Nat)
    (s : NotifState) :
    (engineTick medicines currentMinutes s).2 = true ↔
      s.soundEnabled = true ∧
        ∃ i ∈ (checkForDueMedicines medicines currentMinutes
            s.dismissed).map (·.id), i ∉ s.played := by
  simp only [engineTick, Bool.and_eq_true, Bool.not_eq_true',
    List.any_eq_true, decide_eq_false_iff_not, List.isEmpty_eq_false]
  constructor
  · rintro ⟨⟨hs, _⟩, i, hi, hp⟩
    exact ⟨hs, i, hi, hp⟩
  · rintro ⟨hs, i, hi, hp⟩
    refine ⟨⟨hs, ?_⟩, i, hi, hp⟩
    intro hnil
    rw [hnil] at hi
    simp at hi

theorem engineTick_played_mono (medicines : List Medicine)
    (currentMinutes : Nat) (s : NotifState) :
    ∀ i ∈ s.played, i ∈ (engineTick medicines currentMinutes s).1.played := by
  intro i hi
  simp only [engineTick]
  split
  · exact List.mem_append_left _ hi
  · exact hi

theorem engineRun_played_mono (ticks : List (List Medicine × Nat))
    (s : NotifState) :
    ∀ i ∈ s.played, i ∈ (engineRun s ticks).played := by
  induction ticks generalizing s with
  | nil => intro i hi; exact hi
  | cons t rest ih =>
      intro i hi
      obtain ⟨ms, now⟩ := t
      exact ih _ i (engineTick_played_mono ms now s i hi)

/-- C6: the alarm auto-fires on a tick only when sound is enabled and the
freshly computed due set holds an id not yet in the played set (and then the
single `playAlarmSound()` call of that tick is the only playback); on a firing
tick every id of the new due set enters the played set; the played set only
grows, both over one tick and over any run of ticks; when every id of the new
due set has already played, the tick does not fire; and after an id has
entered the played set, any auto-fire on a later tick is on behalf of some
other, not-yet-played id. -/
theorem soundPlayed_guard (medicines : List Medicine) (currentMinutes : Nat)
    (s : NotifState) (ticks : List (List Medicine × Nat)) :
    ((engineTick medicines currentMinutes s).2 = true →
        s.soundEnabled = true ∧
          ∃ i ∈ (checkForDueMedicines medicines currentMinutes
              s.dismissed).map (·.id), i ∉ s.played) ∧
      ((engineTick medicines currentMinutes s).2 = true →
        ∀ i ∈ (checkForDueMedicines medicines currentMinutes
            s.dismissed).map (·.id),
          i ∈ (engineTick medicines currentMinutes s).1.played) ∧
      (∀ i ∈ s.played, i ∈ (engineTick medicines currentMinutes s).1.played) ∧
      ((∀ i ∈ (checkForDueMedicines medicines currentMinutes
          s.dismissed).map (·.id), i ∈ s.played) →
        (engineTick medicines currentMinutes s).2 = false) ∧
      (∀ i ∈ s.played, i ∈ (engineRun s ticks).played) ∧
      (∀ i ∈ s.played,
        (engineTick medicines currentMinutes (engineRun s ticks)).2 = true →
          ∃ j ∈ (checkForDueMedicines medicines currentMinutes
              (engineRun s ticks).dismissed).map (·.id),
            j ∉ (engineRun s ticks).played ∧ j ≠ i) := by
  refine ⟨fun h => (engineTick_fired_iff _ _ _).mp h, ?_,
    engineTick_played_mono _ _ _, ?_, engineRun_played_mono _ _, ?_⟩
  · intro h i hi
    simp only [engineTick] at h ⊢
    rw [if_pos h]
    exact List.mem_append_right _ hi
  · intro h
    by_contra hne
    rw [Bool.not_eq_false] at hne
    obtain ⟨_, i, hi, hp⟩ := (engineTick_fired_iff _ _ _).mp hne
    exact hp (h i hi)
  · intro i hi h
    obtain ⟨_, j, hj, hp⟩ := (engineTick_fired_iff _ _ _).mp h
    have hi' : i ∈ (engineRun s ticks).played :=
      engineRun_played_mono ticks s i hi
    exact ⟨j, hj, hp, fun hji => hp (hji ▸ hi')⟩

/-- C6 witness: `soundPlayed_guard` applied at a state whose played set
already holds the only due id, so the tick at 08:00 does not fire. -/
theorem soundPlayed_guard_witness :
    (engineTick [medA] 480 ⟨[], [], true, [("1", ⟨8, 0⟩)]⟩).2 = false :=
  (soundPlayed_guard [medA] 480 ⟨[], [], true, [("1", ⟨8, 0⟩)]⟩ []).2.2.2.1
    (by decide)

/-- C7 evaluation at the failing input: taking `(medA, 08:00)` from its
notification at 08:05 records the log entry, yet the card's local taken-set
stays empty, so at 08:20 the card still reports the slot Overdue (and not
due-now, and not taken) instead of Taken. -/
theorem notifTake_leaves_card_overdue :
    afterNotifTake.log =
        [⟨"1", "Lisinopril", ⟨8, 0⟩, ⟨8, 5⟩, "2026-10-12"⟩] ∧
      (⟨8, 0⟩ : HM) ∉ afterNotifTake.cardTaken ∧
      overdueBadge (500 * 60000) afterNotifTake.cardTaken ⟨8, 0⟩ = true ∧
      dueBadge (500 * 60000) afterNotifTake.cardTaken ⟨8, 0⟩ = false := by
  refine ⟨by decide, by decide, by decide, by decide⟩

/-- C8: `handleTakeMedicine` appends exactly one log entry — medicine id, the
found medicine's denormalized name, the scheduled time, now as `HH:MM` and
today's date — when the id resolves to a known medicine, and leaves the log
unchanged (the action is ignored) when it does not; the operation is total,
so no other failure exists. -/
theorem recordTaken_spec (medicines : List Medicine)
    (medicineLog : List MedicineLog) (medicineId : String) (time nowHM : HM)
    (today : String) :
    (∀ med, (medicines.find? fun m => m.id == medicineId) = some med →
        handleTakeMedicine medicines medicineLog medicineId time nowHM today =
          medicineLog ++ [⟨medicineId, med.name, time, nowHM, today⟩]) ∧
      ((∀ med ∈ medicines, med.id ≠ medicineId) →
        handleTakeMedicine medicines medicineLog medicineId time nowHM today =
          medicineLog) := by
  constructor
  · intro med h
    unfold handleTakeMedicine
    rw [h]
  · intro h
    unfold handleTakeMedicine
    have hnone : (medicines.find? fun m => m.id == medicineId) = none := by
      rw [List.find?_eq_none]
      intro med hmed
      simpa using h med hmed
    rw [hnone]

/-- C8 witness: `recordTaken_spec` applied to the take of `(medA, 08:00)` at
08:05 on an empty log. -/
theorem recordTaken_spec_witness :
    handleTakeMedicine [medA] [] "1" ⟨8, 0⟩ ⟨8, 5⟩ "2026-10-12" =
      [⟨"1", "Lisinopril", ⟨8, 0⟩, ⟨8, 5⟩, "2026-10-12"⟩] :=
  (recordTaken_spec [medA] [] "1" ⟨8, 0⟩ ⟨8, 5⟩ "2026-10-12").1 medA
    (by decide)

/-- C9 counterexample: a dose taken from the card stays out of the dismissed
set, so at 08:03 its notification is still in the engine's due set, yet the
card classifier reports it neither due-now nor overdue (it is taken) — the
due set is not contained in the card-level due/overdue classifications. -/
theorem dueSet_member_neither_due_nor_overdue :
    (⟨medA, ⟨8, 0⟩, notifId medA ⟨8, 0⟩⟩ : DueNotification) ∈
        checkForDueMedicines [medA] (483 * 60000 / 60000) [] ∧
      dueBadge (483 * 60000) [⟨8, 0⟩] ⟨8, 0⟩ = false ∧
      overdueBadge (483 * 60000) [⟨8, 0⟩] ⟨8, 0⟩ = false := by
  refine ⟨by decide, by decide, by decide⟩

/-- C9 (amended): every instance of the notification engine's due set
(five-minute window on minutes-of-day) whose time is not in the card's
taken-set is classified due-now or overdue by the card classifier
(15-minute wall-clock window) at the same instant — the notification window
sits inside the card-level due window. -/
theorem dueSet_subset_card_window (medicines : List Medicine) (nowMs : Nat)
    (dismissed : List NotifId) (takenTimes : List HM) (n : DueNotification)
    (hmem : n ∈ checkForDueMedicines medicines (nowMs / 60000) dismissed)
    (htaken : n.time ∉ takenTimes) :
    dueBadge nowMs takenTimes n.time = true ∨
      overdueBadge nowMs takenTimes n.time = true := by
  left
  obtain ⟨m, _, _, t, _, hd, _, rfl⟩ := mem_checkForDueMedicines.mp hmem
  simp only [dueBadge, isDueNow, Bool.and_eq_true, decide_eq_true_eq,
    Bool.not_eq_true', decide_eq_false_iff_not]
  refine ⟨?_, htaken⟩
  simp only [absDiff, HM.slotMs] at hd ⊢
  split at hd <;> split <;> omega

/-- C9 witness: `dueSet_subset_card_window` applied to the untaken 08:00 dose
of `medA` at 08:03. -/
theorem dueSet_subset_card_window_witness :
    dueBadge (483 * 60000) [] (⟨8, 0⟩ : HM) = true ∨
      overdueBadge (483 * 60000) [] (⟨8, 0⟩ : HM) = true :=
  dueSet_subset_card_window [medA] (483 * 60000) [] []
    ⟨medA, ⟨8, 0⟩, notifId medA ⟨8, 0⟩⟩ (by decide) (by decide)

/-- C10: deleting a medicine removes exactly the medicines carrying the given
id from the collection and leaves the adherence log untouched: the log field
is unchanged, today's-log queries return the same entries, and every entry
recorded for the deleted medicine is still returned. -/
theorem deleteMedicine_spec (s : AppState) (id : String) (today : String) :
    (handleDeleteMedicine s id).medicineLog = s.medicineLog ∧
      (∀ m, m ∈ (handleDeleteMedicine s id).medicines ↔
        m ∈ s.medicines ∧ m.id ≠ id) ∧
      getTodaysLog (handleDeleteMedicine s id) today = getTodaysLog s today ∧
      ∀ e ∈ s.medicineLog, e.date = today →
        e ∈ getTodaysLog (handleDeleteMedicine s id) today := by
  refine ⟨rfl, ?_, rfl, ?_⟩
  · intro m
    simp [handleDeleteMedicine, List.mem_filter]
  · intro e he hd
    simp only [getTodaysLog, handleDeleteMedicine, List.mem_filter]
    exact ⟨he, by simp [hd]⟩

/-- C10 witness: `deleteMedicine_spec` applied to deleting `medA` after one
take was logged for it; the entry is still in today's log. -/
theorem deleteMedicine_spec_witness :
    (⟨"1", "Lisinopril", ⟨8, 0⟩, ⟨8, 5⟩, "2026-10-12"⟩ : MedicineLog) ∈
      getTodaysLog
        (handleDeleteMedicine
          ⟨[medA], [⟨"1", "Lisinopril", ⟨8, 0⟩, ⟨8, 5⟩, "2026-10-12"⟩]⟩ "1")
        "2026-10-12" :=
  (deleteMedicine_spec
      ⟨[medA], [⟨"1", "Lisinopril", ⟨8, 0⟩, ⟨8, 5⟩, "2026-10-12"⟩]⟩ "1"
      "2026-10-12").2.2.2 _ (by decide) (by decide)

/-- C4 counterexample: from the form, a twice-daily medicine whose times are
entered as 20:00 then 08:00 is created with that exact order; the derived
slot list `[1200, 480]` is not sorted ascending, and `getNextDose` at 07:00
consequently returns 20:00 rather than the chronologically next 08:00. -/
theorem slotList_unsorted :
    handleSubmit unsortedForm [some ⟨20, 0⟩, some ⟨8, 0⟩] "3" "#22c55e" =
        some medC ∧
      slotList medC = [1200, 480] ∧
      ¬ List.Sorted (· ≤ ·) (slotList medC) ∧
      getNextDose medC 420 = some ⟨20, 0⟩ := by
  refine ⟨by decide, by decide, ?_, by decide⟩
  intro h
  have e : slotList medC = [1200, 480] := by decide
  rw [e] at h
  have h2 := List.rel_of_sorted_cons h 480 (by simp)
  omega

/-- C4 (amended): the daily slot list the scheduling logic derives from a
medicine is its times as minute-of-day integers in the order they were
entered on the form (never sorted); an as-needed medicine is created with an
empty times list and is excluded from `getNextDose`, from the upcoming-doses
projection and from the notification due set. -/
theorem scheduleModel_spec (fd : MedicineFormData) (times : List (Option HM))
    (newId selectedColor : String) (m : Medicine) (medicines : List Medicine)
    (currentMinutes : Nat) (dismissed : List NotifId) :
    (handleSubmit fd times newId selectedColor = some m →
        (m.frequency = "as-needed" → m.times = [] ∧ slotList m = []) ∧
          (m.frequency ≠ "as-needed" → m.times = times.reduceOption)) ∧
      (m.frequency = "as-needed" → getNextDose m currentMinutes = none) ∧
      (∀ e ∈ collectUpcoming medicines currentMinutes,
        e.medicine.frequency ≠ "as-needed") ∧
      (∀ n ∈ checkForDueMedicines medicines currentMinutes dismissed,
        n.medicine.frequency ≠ "as-needed") ∧
      slotList m = m.times.map HM.minutes := by
  refine ⟨?_, ?_, ?_, ?_, rfl⟩
  · intro h
    unfold handleSubmit at h
    split at h
    · simp at h
    split at h
    · simp at h
    rename_i hreq htimes
    injection h with h'
    subst h'
    constructor
    · intro hf
      have hf' : fd.frequency = "as-needed" := hf
      exact ⟨by simp [hf'], by simp [slotList, hf']⟩
    · intro hf
      have hf' : fd.frequency ≠ "as-needed" := hf
      simp [hf']
  · intro hf
    simp [getNextDose, hf]
  · intro e he
    obtain ⟨m', _, hf, t, _, _, rfl⟩ := mem_collectUpcoming.mp he
    simpa using hf
  · intro n hn
    obtain ⟨m', _, hf, t, _, _, _, rfl⟩ := mem_checkForDueMedicines.mp hn
    simpa using hf

/-- C4 witness: `scheduleModel_spec` applied to the creation of `medC`, whose
times keep the entered order 20:00, 08:00. -/
theorem scheduleModel_spec_witness :
    medC.times =
      ([some ⟨20, 0⟩, some ⟨8, 0⟩] : List (Option HM)).reduceOption :=
  ((scheduleModel_spec unsortedForm [some ⟨20, 0⟩, some ⟨8, 0⟩] "3" "#22c55e"
      medC [] 0 []).1 (by decide)).2 (by decide)

/-- C2 witness: `overdueBadge_spec` instantiated; its scenario clause shows
the untaken 08:00 slot reported overdue at 08:20. -/
theorem overdueBadge_spec_witness :
    overdueBadge (500 * 60000) [] ⟨8, 0⟩ = true :=
  (overdueBadge_spec 0 [] ⟨0, 0⟩).2

/-- C3 witness: `dueBadge_spec` instantiated; its scenario clause shows the
untaken 08:00 slot reported due-now at 08:03. -/
theorem dueBadge_spec_witness :
    dueBadge (483 * 60000) [] ⟨8, 0⟩ = true :=
  (dueBadge_spec 0 [] ⟨0, 0⟩).2.1

/-- C5 witness: `dueSet_spec` applied to a tick for `medA` at 08:00 from a
state with a stale due set; the visible due set is the fresh recomputation. -/
theorem dueSet_spec_witness :
    (engineTick [medA] 480 ⟨[], [], true, []⟩).1.due =
      checkForDueMedicines [medA] 480 [] :=
  (dueSet_spec [medA] 480 ⟨[], [], true, []⟩).1
